import Mathlib

/-!
Shallow embedding of the habit-tracker bot (src/database.py, src/inputHandler.py)
and verification of the specified properties of its data model and operations.

Modelling conventions:
* `datetime.utcnow()` instants are modelled as natural numbers counting seconds
  (`Time`); the calls to `utcnow()` that happen inside one `log_activity`
  invocation are modelled as one and the same instant `now`, passed explicitly.
* Python `timedelta.days` is floor division of the signed second difference
  by 86400, i.e. `Int.fdiv`.
* The three MongoDB collections are modelled as lists of documents in insertion
  order.  `find_one` returns the first match; `update_one` rewrites the first
  match; `find_one_and_update` with `upsert=True` and `ReturnDocument.AFTER`
  returns the post-operation document.  The unique index on `telegram_id`
  makes the first match the only one in every reachable state.
* The `timestamp` field of an activity document is compared with the
  `$gte`/`$lte` bounds of `get_user_activities`; it is modelled as a value of
  the ordered type `Time`, and the Mongo sort on a key is modelled by a stable
  merge sort on that key.
-/

namespace HabitTracker

/-- Wall-clock instants, seconds since the epoch. -/
abbrev Time := Nat

/-- The `settings` sub-document created by `create_user` (src/database.py). -/
structure Settings where
  timezone : String
  daily_reminder : Bool
  reminder_time : String
deriving DecidableEq

/-- The `stats` sub-document of a user document (src/database.py). -/
structure Stats where
  total_activities : Int
  total_duration : Int
  streak : Int
  last_activity : Option Time
deriving DecidableEq

/-- A document of the `users` collection. -/
structure UserDoc where
  telegram_id : Int
  username : String
  created_at : Time
  settings : Settings
  stats : Stats
deriving DecidableEq

/-- A document of the `activities` collection, as built by `log_activity`. -/
structure ActivityDoc where
  user_id : Int
  activity : String
  timestamp : Time
  duration : Int
  sentiment : String
  created_at : Time
deriving DecidableEq

/-- A document of the `habits` collection, as built by `add_or_update_habit`. -/
structure HabitDoc where
  user_id : Int
  name : String
  target_frequency : String
  target_duration : Int
  created_at : Time
  updated_at : Time
  streak : Int
  total_completions : Int
deriving DecidableEq

/-- The state of the three collections owned by `DatabaseHandler`. -/
structure DB where
  users : List UserDoc
  activities : List ActivityDoc
  habits : List HabitDoc
deriving DecidableEq

/-- The default `settings` sub-document of `create_user`. -/
def defaultSettings : Settings :=
  { timezone := "UTC", daily_reminder := false, reminder_time := "09:00" }

/-- The default `stats` sub-document of `create_user`: all counters zero,
`last_activity` null. -/
def defaultStats : Stats :=
  { total_activities := 0, total_duration := 0, streak := 0, last_activity := none }

/-- The fresh user document built at the top of `create_user`. -/
def defaultUser (telegram_id : Int) (username : String) (now : Time) : UserDoc :=
  { telegram_id := telegram_id, username := username, created_at := now,
    settings := defaultSettings, stats := defaultStats }

/-- `users.find_one({"telegram_id": uid})`: first matching document. -/
def findUser : List UserDoc → Int → Option UserDoc
  | [], _ => none
  | u :: rest, uid => if u.telegram_id = uid then some u else findUser rest uid

/-- `users.update_one({"telegram_id": uid}, ...)` with an update that only
touches the `stats` sub-document: rewrites the first matching document. -/
def updateUserStats : List UserDoc → Int → (Stats → Stats) → List UserDoc
  | [], _, _ => []
  | u :: rest, uid, f =>
    if u.telegram_id = uid then { u with stats := f u.stats } :: rest
    else u :: updateUserStats rest uid f

/-- `DatabaseHandler.create_user` (src/database.py, lines 41-68):
`find_one_and_update` keyed on `telegram_id` with `$setOnInsert` of the default
document, `upsert=True`, returning the post-operation document. -/
def create_user (db : DB) (telegram_id : Int) (username : String) (now : Time) :
    UserDoc × DB :=
  match findUser db.users telegram_id with
  | some u => (u, db)
  | none =>
    let u := defaultUser telegram_id username now
    (u, { db with users := db.users ++ [u] })

/-- `DatabaseHandler._update_streak` (src/database.py, lines 145-170).
It re-reads the user document, takes `stats.last_activity` as it stands at
that point, and either increments `stats.streak` (when the field is non-null
and `(now - last_activity).days <= 1`) or sets it to 1. -/
def update_streak (db : DB) (uid : Int) (now : Time) : DB :=
  match findUser db.users uid with
  | none => db
  | some u =>
    let incUsers := updateUserStats db.users uid
      (fun st => { st with streak := st.streak + 1 })
    let resetUsers := updateUserStats db.users uid
      (fun st => { st with streak := 1 })
    match u.stats.last_activity with
    | some la =>
      if ((now : Int) - (la : Int)).fdiv 86400 ≤ 1 then
        { db with users := incUsers }
      else
        { db with users := resetUsers }
    | none =>
      { db with users := resetUsers }

/-- `DatabaseHandler.log_activity` (src/database.py, lines 70-110): inserts the
activity document, then `$inc`s `stats.total_activities` / `stats.total_duration`
and `$set`s `stats.last_activity` to now, and only then calls `_update_streak`. -/
def log_activity (db : DB) (user_id : Int) (activity : String) (timestamp : Time)
    (duration : Int) (sentiment : String) (now : Time) : ActivityDoc × DB :=
  let doc : ActivityDoc :=
    { user_id := user_id, activity := activity, timestamp := timestamp,
      duration := duration, sentiment := sentiment, created_at := now }
  let db1 : DB := { db with activities := db.activities ++ [doc] }
  let newUsers := updateUserStats db1.users user_id
    (fun st =>
      { st with
        total_activities := st.total_activities + 1,
        total_duration := st.total_duration + duration,
        last_activity := some now })
  let db2 : DB := { db1 with users := newUsers }
  (doc, update_streak db2 user_id now)

/-- The query document built by `get_user_activities` (src/database.py,
lines 112-133): `user_id` equality plus optional `$gte`/`$lte` bounds on
`timestamp`. -/
def matchesQuery (uid : Int) (start_date end_date : Option Time)
    (a : ActivityDoc) : Bool :=
  decide (a.user_id = uid) &&
    (match start_date with
     | some sd => decide (sd ≤ a.timestamp)
     | none => true) &&
    (match end_date with
     | some ed => decide (a.timestamp ≤ ed)
     | none => true)

/-- The `timestamp`-descending comparison used by the Mongo sort in
`get_user_activities`. -/
def byTimestampDesc (a b : ActivityDoc) : Bool :=
  decide (b.timestamp ≤ a.timestamp)

/-- `DatabaseHandler.get_user_activities` (src/database.py, lines 112-133):
filter, sort by `timestamp` descending, truncate to `limit`. -/
def get_user_activities (db : DB) (uid : Int) (start_date end_date : Option Time)
    (limit : Nat) : List ActivityDoc :=
  (((db.activities.filter (matchesQuery uid start_date end_date)).mergeSort
      byTimestampDesc).take limit)

/-- `DatabaseHandler.get_user_stats` (src/database.py, lines 135-143); `none`
models the raised "User not found" exception. -/
def get_user_stats (db : DB) (uid : Int) : Option Stats :=
  (findUser db.users uid).map (fun u => u.stats)

/-- `habits.find_one_and_update` key lookup: first habit matching
`(user_id, name)`. -/
def findHabit : List HabitDoc → Int → String → Option HabitDoc
  | [], _, _ => none
  | h :: rest, uid, name =>
    if h.user_id = uid ∧ h.name = name then some h else findHabit rest uid name

/-- Rewriting the first habit matching `(user_id, name)` with a full `$set` of
every field of the new document. -/
def setHabit : List HabitDoc → Int → String → HabitDoc → List HabitDoc
  | [], _, _, _ => []
  | h :: rest, uid, name, doc =>
    if h.user_id = uid ∧ h.name = name then doc :: rest
    else h :: setHabit rest uid name doc

/-- `DatabaseHandler.add_or_update_habit` (src/database.py, lines 172-197):
builds a complete fresh habit document — including `created_at := now`,
`streak := 0` and `total_completions := 0` — and applies it with `$set` under
`upsert=True`, so every field of an existing document is overwritten. -/
def add_or_update_habit (db : DB) (uid : Int) (habit_name : String)
    (target_frequency : String) (target_duration : Int) (now : Time) :
    HabitDoc × DB :=
  let habit : HabitDoc :=
    { user_id := uid, name := habit_name, target_frequency := target_frequency,
      target_duration := target_duration, created_at := now, updated_at := now,
      streak := 0, total_completions := 0 }
  match findHabit db.habits uid habit_name with
  | some _ => (habit, { db with habits := setHabit db.habits uid habit_name habit })
  | none => (habit, { db with habits := db.habits ++ [habit] })

/-- The `ProcessedActivity` dataclass (src/inputHandler.py, lines 8-14).
The dataclass performs no validation of its fields. -/
structure ProcessedActivity where
  time : String
  activity : String
  sentiment : String
  duration : Int
deriving DecidableEq

/-- The sentiment-to-emoji lookup of `format_activities_for_display`
(src/inputHandler.py, lines 120-124): a dict `.get` with default neutral glyph. -/
def sentiment_emoji (s : String) : String :=
  if s = "positive" then "😊"
  else if s = "neutral" then "😐"
  else if s = "negative" then "😕"
  else "😐"

/-- The duration suffix of `format_activities_for_display`
(src/inputHandler.py, line 127): present exactly when `duration > 0`. -/
def duration_text (d : Int) : String :=
  if d > 0 then " (" ++ toString d ++ " mins)" else ""

/-- One formatted line of `format_activities_for_display`
(src/inputHandler.py, line 129). -/
def activity_line (a : ProcessedActivity) : String :=
  "⏰ " ++ a.time ++ " - " ++ a.activity ++ duration_text a.duration ++ " "
    ++ sentiment_emoji a.sentiment ++ "\n"

/-- The concatenation of the per-record lines, in input order. -/
def concatLines (as : List ProcessedActivity) : String :=
  as.foldr (fun a acc => activity_line a ++ acc) ""

/-- `InputHandler.format_activities_for_display` (src/inputHandler.py,
lines 111-131). -/
def format_activities_for_display (activities : List ProcessedActivity) : String :=
  if activities.isEmpty then "No activities found in the message."
  else activities.foldl (fun msg a => msg ++ activity_line a)
    "📋 Here\x27s your activity log:\n\n"

/-- One item of the evaluated extractor output, with all four expected keys
present and holding values of the expected Python types.  This is the shape on
which the dictionary lookups in `process_message` succeed. -/
structure RawItem where
  time : String
  activity : String
  sentiment : String
  duration : Int
deriving DecidableEq

/-- The record-construction step of `InputHandler.process_message`
(src/inputHandler.py, lines 80-90): the fields of each item are copied verbatim
into a `ProcessedActivity`; no field is validated. -/
def itemToActivity (i : RawItem) : ProcessedActivity :=
  { time := i.time, activity := i.activity, sentiment := i.sentiment,
    duration := i.duration }

/-- The list comprehension of `process_message`: it maps `itemToActivity`
over the evaluated extractor output and returns the result unconditionally. -/
def process_items (items : List RawItem) : List ProcessedActivity :=
  items.map itemToActivity

/-- Modelled from the spec (section 3, ActivityRecord invariant): `time` parses
as a valid 24-hour `HH:MM` timestamp. -/
def specValidTime (t : String) : Bool :=
  match t.toList with
  | [h1, h2, c, m1, m2] =>
    h1.isDigit && h2.isDigit && c = ':' && m1.isDigit && m2.isDigit &&
      decide ((h1.toNat - 48) * 10 + (h2.toNat - 48) < 24) &&
      decide ((m1.toNat - 48) * 10 + (m2.toNat - 48) < 60)
  | _ => false

/-- Modelled from the spec (section 3, ActivityRecord invariant): valid time,
non-negative duration, sentiment in the closed set. -/
def specValidRecord (a : ProcessedActivity) : Bool :=
  specValidTime a.time && decide (0 ≤ a.duration) &&
    (a.sentiment = "positive" || a.sentiment = "neutral" ||
      a.sentiment = "negative")

/-- The combined effect on the `stats` sub-document of one `log_activity` call
for an existing user: the `$inc`/`$set` update followed by the increment branch
of `_update_streak`. -/
def logStatsUpdate (duration : Int) (now : Time) (st : Stats) : Stats :=
  { total_activities := st.total_activities + 1,
    total_duration := st.total_duration + duration,
    streak := st.streak + 1,
    last_activity := some now }

/-- The arguments of one `log_activity` call, together with the wall-clock
instant at which it runs. -/
structure LogCall where
  user_id : Int
  activity : String
  timestamp : Time
  duration : Int
  sentiment : String
  now : Time
deriving DecidableEq

/-- Run one `log_activity` call, keeping the resulting database state. -/
def logOne (db : DB) (c : LogCall) : DB :=
  (log_activity db c.user_id c.activity c.timestamp c.duration c.sentiment c.now).2

/-- Run a sequence of `log_activity` calls in order. -/
def logAll (db : DB) (cs : List LogCall) : DB :=
  cs.foldl logOne db

/-- The persisted activity documents of one user. -/
def userActivities (db : DB) (uid : Int) : List ActivityDoc :=
  db.activities.filter (fun a => decide (a.user_id = uid))

/-- The stats invariant of the spec: if the user exists, the counters match
the persisted activity documents. -/
def statsInv (db : DB) (uid : Int) : Bool :=
  match findUser db.users uid with
  | none => true
  | some u =>
    decide (u.stats.total_activities = ((userActivities db uid).length : Int)) &&
      decide (u.stats.total_duration =
        ((userActivities db uid).map (fun a => a.duration)).sum)

/-- Frame relation on user documents for `log_activity` targeted at `uid`:
everything except the `stats` sub-document is preserved, and a document of any
other user is preserved entirely. -/
def profileFrame (uid : Int) (u v : UserDoc) : Prop :=
  v.telegram_id = u.telegram_id ∧ v.username = u.username ∧
    v.created_at = u.created_at ∧ v.settings = u.settings ∧
    (u.telegram_id ≠ uid → v = u)

/-- An empty database state. -/
def dbEmpty : DB := { users := [], activities := [], habits := [] }

/-- A user whose previous activity was at instant 0, with a running streak
of 5. -/
def userT : UserDoc :=
  { telegram_id := 1, username := "alice", created_at := 0,
    settings := defaultSettings,
    stats := { total_activities := 3, total_duration := 10, streak := 5,
               last_activity := some 0 } }

/-- A database holding exactly the user `userT`. -/
def dbT : DB := { users := [userT], activities := [], habits := [] }

/-- An existing habit goal with non-zero counters. -/
def habit0 : HabitDoc :=
  { user_id := 1, name := "reading", target_frequency := "daily",
    target_duration := 30, created_at := 100, updated_at := 100,
    streak := 5, total_completions := 7 }

/-- A database holding exactly the habit `habit0`. -/
def dbH : DB := { users := [], activities := [], habits := [habit0] }

/-- The outcome the claim predicts for a repeat upsert over `habit0`: only
the target fields and `updated_at` replaced, counters and `created_at`
kept. -/
def habit0claimed : HabitDoc :=
  { habit0 with target_frequency := "weekly", target_duration := 45, updated_at := 200 }

/-- An activity document whose timestamp lies exactly on a window boundary. -/
def act5 : ActivityDoc :=
  { user_id := 1, activity := "run", timestamp := 5, duration := 0,
    sentiment := "neutral", created_at := 5 }

/-- A database holding exactly the activity `act5`. -/
def dbA : DB := { users := [], activities := [act5], habits := [] }

/-- A freshly created user profile for external id 7. -/
def dbFresh : DB := (create_user dbEmpty 7 "bob" 50).2

/-- Three activities with durations 30, 0 and 45 for user 7. -/
def c5calls : List LogCall :=
  [{ user_id := 7, activity := "a", timestamp := 60, duration := 30,
     sentiment := "neutral", now := 60 },
   { user_id := 7, activity := "b", timestamp := 70, duration := 0,
     sentiment := "neutral", now := 70 },
   { user_id := 7, activity := "c", timestamp := 80, duration := 45,
     sentiment := "positive", now := 80 }]

/-- The state after logging the three activities of `c5calls` against the
fresh profile. -/
def dbC5after : DB := logAll dbFresh c5calls

/-- A processed activity with duration 0 and an unknown sentiment value. -/
def pa0 : ProcessedActivity :=
  { time := "06:30", activity := "wake up", sentiment := "weird",
    duration := 0 }

theorem findUser_updateUserStats_self (us : List UserDoc) (uid : Int)
    (f : Stats → Stats) :
    findUser (updateUserStats us uid f) uid =
      (findUser us uid).map (fun u => { u with stats := f u.stats }) := by
  induction us with
  | nil => rfl
  | cons u rest ih =>
    by_cases h : u.telegram_id = uid
    · simp [updateUserStats, findUser, h]
    · simp [updateUserStats, findUser, h, ih]

theorem findUser_updateUserStats_ne (us : List UserDoc) (uid uid2 : Int)
    (f : Stats → Stats) (h : uid ≠ uid2) :
    findUser (updateUserStats us uid2 f) uid = findUser us uid := by
  induction us with
  | nil => rfl
  | cons u rest ih =>
    by_cases h1 : u.telegram_id = uid2
    · simp [updateUserStats, findUser, h1, Ne.symm h]
    · by_cases h2 : u.telegram_id = uid
      · simp [updateUserStats, findUser, h1, h2, h]
      · simp [updateUserStats, findUser, h1, h2, ih]

theorem updateUserStats_not_found (us : List UserDoc) (uid : Int)
    (f : Stats → Stats) (h : findUser us uid = none) :
    updateUserStats us uid f = us := by
  induction us with
  | nil => rfl
  | cons u rest ih =>
    by_cases h1 : u.telegram_id = uid
    · simp [findUser, h1] at h
    · simp only [findUser, if_neg h1] at h
      simp [updateUserStats, h1, ih h]

theorem updateUserStats_comp (us : List UserDoc) (uid : Int)
    (f g : Stats → Stats) :
    updateUserStats (updateUserStats us uid f) uid g =
      updateUserStats us uid (fun st => g (f st)) := by
  induction us with
  | nil => rfl
  | cons u rest ih =>
    by_cases h1 : u.telegram_id = uid
    · simp [updateUserStats, h1]
    · simp [updateUserStats, h1, ih]

theorem update_streak_after_update (db : DB) (uid : Int) (now : Time)
    (f : Stats → Stats) (u : UserDoc) (hu : findUser db.users uid = some u)
    (hf : ∀ st, (f st).last_activity = some now) :
    update_streak { db with users := updateUserStats db.users uid f } uid now =
      { db with users := (updateUserStats db.users uid
          (fun st => { f st with streak := (f st).streak + 1 })) } := by
  have hfu : findUser (updateUserStats db.users uid f) uid
      = some { u with stats := f u.stats } := by
    rw [findUser_updateUserStats_self, hu]; rfl
  have hcond : (((now : Time) : Int) - ((now : Time) : Int)).fdiv 86400 ≤ 1 := by
    rw [sub_self, Int.zero_fdiv]; decide
  unfold update_streak
  simp only [hfu, hf u.stats, hcond, if_pos]
  rw [updateUserStats_comp]

theorem update_streak_not_found (db : DB) (uid : Int) (now : Time)
    (hu : findUser db.users uid = none) : update_streak db uid now = db := by
  unfold update_streak
  rw [hu]

theorem log_activity_found (db : DB) (uid : Int) (a : String) (t : Time)
    (d : Int) (s : String) (now : Time) (u : UserDoc)
    (hu : findUser db.users uid = some u) :
    (log_activity db uid a t d s now).1 =
      { user_id := uid, activity := a, timestamp := t, duration := d,
        sentiment := s, created_at := now } ∧
    (log_activity db uid a t d s now).2.users =
      updateUserStats db.users uid (logStatsUpdate d now) ∧
    (log_activity db uid a t d s now).2.activities =
      db.activities ++ [(log_activity db uid a t d s now).1] ∧
    (log_activity db uid a t d s now).2.habits = db.habits := by
  have key := update_streak_after_update
    (DB.mk db.users (db.activities ++ [ActivityDoc.mk uid a t d s now]) db.habits)
    uid now
    (fun st => Stats.mk (st.total_activities + 1) (st.total_duration + d)
      st.streak (some now))
    u hu (fun _ => rfl)
  have k1 := congrArg DB.users key
  have k2 := congrArg DB.activities key
  have k3 := congrArg DB.habits key
  exact ⟨rfl, k1, k2, k3⟩

theorem log_activity_not_found (db : DB) (uid : Int) (a : String) (t : Time)
    (d : Int) (s : String) (now : Time) (hu : findUser db.users uid = none) :
    (log_activity db uid a t d s now).2.users = db.users ∧
    (log_activity db uid a t d s now).2.activities =
      db.activities ++ [(log_activity db uid a t d s now).1] ∧
    (log_activity db uid a t d s now).2.habits = db.habits := by
  have hns : updateUserStats db.users uid
      (fun st => Stats.mk (st.total_activities + 1) (st.total_duration + d)
        st.streak (some now)) = db.users :=
    updateUserStats_not_found db.users uid _ hu
  have hlog : (log_activity db uid a t d s now).2 =
      update_streak
        (DB.mk (updateUserStats db.users uid
          (fun st => Stats.mk (st.total_activities + 1) (st.total_duration + d)
            st.streak (some now)))
          (db.activities ++ [ActivityDoc.mk uid a t d s now]) db.habits)
        uid now := rfl
  have h2 : update_streak
      (DB.mk db.users (db.activities ++ [ActivityDoc.mk uid a t d s now])
        db.habits) uid now =
      DB.mk db.users (db.activities ++ [ActivityDoc.mk uid a t d s now])
        db.habits :=
    update_streak_not_found _ uid now hu
  rw [hlog, hns, h2]
  exact ⟨rfl, rfl, rfl⟩

theorem profileFrame_refl (uid : Int) (u : UserDoc) : profileFrame uid u u :=
  ⟨rfl, rfl, rfl, rfl, fun _ => rfl⟩

theorem profileFrame_comp (uid : Int) (u v w : UserDoc)
    (h1 : profileFrame uid u v) (h2 : profileFrame uid v w) :
    profileFrame uid u w := by
  obtain ⟨a1, b1, c1, d1, e1⟩ := h1
  obtain ⟨a2, b2, c2, d2, e2⟩ := h2
  refine ⟨a2.trans a1, b2.trans b1, c2.trans c1, d2.trans d1, fun hne => ?_⟩
  have hv : v.telegram_id ≠ uid := by rw [a1]; exact hne
  rw [e2 hv, e1 hne]

theorem forall2_refl_of {α : Type} {R : α → α → Prop} (h : ∀ a, R a a)
    (l : List α) : List.Forall₂ R l l :=
  List.forall₂_same.mpr (fun x _ => h x)

theorem forall2_trans_of {α : Type} {R : α → α → Prop}
    (h : ∀ a b c, R a b → R b c → R a c) {l1 l2 l3 : List α}
    (h12 : List.Forall₂ R l1 l2) (h23 : List.Forall₂ R l2 l3) :
    List.Forall₂ R l1 l3 := by
  induction h12 generalizing l3 with
  | nil => cases h23; exact List.Forall₂.nil
  | cons hab h12t ih =>
    cases h23 with
    | cons hbc h23t => exact List.Forall₂.cons (h _ _ _ hab hbc) (ih h23t)

theorem updateUserStats_frame (us : List UserDoc) (uid : Int)
    (f : Stats → Stats) :
    List.Forall₂ (profileFrame uid) us (updateUserStats us uid f) := by
  induction us with
  | nil => exact List.Forall₂.nil
  | cons u rest ih =>
    simp only [updateUserStats]
    by_cases h : u.telegram_id = uid
    · rw [if_pos h]
      exact List.Forall₂.cons ⟨rfl, rfl, rfl, rfl, fun hn => absurd h hn⟩
        (forall2_refl_of (profileFrame_refl uid) rest)
    · rw [if_neg h]
      exact List.Forall₂.cons (profileFrame_refl uid u) ih

theorem update_streak_frame (db : DB) (uid : Int) (now : Time) :
    List.Forall₂ (profileFrame uid) db.users (update_streak db uid now).users ∧
    (update_streak db uid now).activities = db.activities ∧
    (update_streak db uid now).habits = db.habits := by
  simp only [update_streak]
  split
  · exact ⟨forall2_refl_of (profileFrame_refl uid) db.users, rfl, rfl⟩
  · split
    · split
      · exact ⟨updateUserStats_frame db.users uid _, rfl, rfl⟩
      · exact ⟨updateUserStats_frame db.users uid _, rfl, rfl⟩
    · exact ⟨updateUserStats_frame db.users uid _, rfl, rfl⟩

theorem findUser_update_streak_ne (db : DB) (uid uid2 : Int) (now : Time)
    (h : uid ≠ uid2) :
    findUser (update_streak db uid2 now).users uid = findUser db.users uid := by
  simp only [update_streak]
  split
  · rfl
  · split
    · split
      · exact findUser_updateUserStats_ne db.users uid uid2 _ h
      · exact findUser_updateUserStats_ne db.users uid uid2 _ h
    · exact findUser_updateUserStats_ne db.users uid uid2 _ h

theorem findUser_log_activity_ne (db : DB) (uid uid2 : Int) (a : String)
    (t : Time) (d : Int) (s : String) (now : Time) (h : uid ≠ uid2) :
    findUser (log_activity db uid2 a t d s now).2.users uid =
      findUser db.users uid := by
  have h1 := findUser_update_streak_ne
    (DB.mk (updateUserStats db.users uid2
      (fun st => Stats.mk (st.total_activities + 1) (st.total_duration + d)
        st.streak (some now)))
      (db.activities ++ [ActivityDoc.mk uid2 a t d s now]) db.habits)
    uid uid2 now h
  exact h1.trans (findUser_updateUserStats_ne db.users uid uid2 _ h)

theorem logOne_activities (db : DB) (c : LogCall) :
    (logOne db c).activities = db.activities ++
      [ActivityDoc.mk c.user_id c.activity c.timestamp c.duration c.sentiment
        c.now] := by
  have h := update_streak_frame
    (DB.mk (updateUserStats db.users c.user_id
      (fun st => Stats.mk (st.total_activities + 1)
        (st.total_duration + c.duration) st.streak (some c.now)))
      (db.activities ++ [ActivityDoc.mk c.user_id c.activity c.timestamp
        c.duration c.sentiment c.now]) db.habits)
    c.user_id c.now
  exact h.2.1

theorem userActivities_logOne_self (db : DB) (c : LogCall) :
    userActivities (logOne db c) c.user_id =
      userActivities db c.user_id ++
        [ActivityDoc.mk c.user_id c.activity c.timestamp c.duration c.sentiment
          c.now] := by
  unfold userActivities
  rw [logOne_activities, List.filter_append]
  simp [List.filter]

theorem userActivities_logOne_ne (db : DB) (uid : Int) (c : LogCall)
    (h : uid ≠ c.user_id) :
    userActivities (logOne db c) uid = userActivities db uid := by
  unfold userActivities
  rw [logOne_activities, List.filter_append]
  simp [List.filter, Ne.symm h]

theorem statsInv_logOne (db : DB) (uid : Int) (c : LogCall)
    (h : statsInv db uid = true) : statsInv (logOne db c) uid = true := by
  by_cases hc : uid = c.user_id
  · subst hc
    cases hu : findUser db.users c.user_id with
    | none =>
      have hn := log_activity_not_found db c.user_id c.activity c.timestamp
        c.duration c.sentiment c.now hu
      unfold statsInv logOne
      rw [show (log_activity db c.user_id c.activity c.timestamp c.duration
        c.sentiment c.now).2.users = db.users from hn.1, hu]
    | some u =>
      have hf := log_activity_found db c.user_id c.activity c.timestamp
        c.duration c.sentiment c.now u hu
      unfold statsInv at h
      rw [hu] at h
      simp only [Bool.and_eq_true, decide_eq_true_eq] at h
      obtain ⟨h1, h2⟩ := h
      unfold statsInv
      rw [userActivities_logOne_self db c]
      unfold logOne
      rw [hf.2.1, findUser_updateUserStats_self, hu]
      simp only [Option.map, logStatsUpdate, Bool.and_eq_true, decide_eq_true_eq,
        List.length_append, List.map_append, List.sum_append, List.length_cons,
        List.length_nil, List.map_cons, List.map_nil, List.sum_cons,
        List.sum_nil]
      constructor
      · rw [h1]; push_cast; ring
      · rw [h2]; ring
  · unfold statsInv at h ⊢
    rw [userActivities_logOne_ne db uid c hc]
    unfold logOne
    rw [findUser_log_activity_ne db uid c.user_id c.activity c.timestamp
      c.duration c.sentiment c.now hc]
    exact h

theorem statsInv_logAll (db : DB) (uid : Int) (cs : List LogCall)
    (h : statsInv db uid = true) : statsInv (logAll db cs) uid = true := by
  induction cs generalizing db with
  | nil => exact h
  | cons c rest ih => exact ih (logOne db c) (statsInv_logOne db uid c h)

theorem findUser_append_none (us : List UserDoc) (v : UserDoc) (uid : Int)
    (h : findUser us uid = none) (hv : v.telegram_id = uid) :
    findUser (us ++ [v]) uid = some v := by
  induction us with
  | nil => simp [findUser, hv]
  | cons u rest ih =>
    by_cases h1 : u.telegram_id = uid
    · simp [findUser, h1] at h
    · simp only [findUser, if_neg h1] at h
      simp [List.cons_append, findUser, h1, ih h]

theorem findHabit_setHabit_self (hs : List HabitDoc) (uid : Int) (n : String)
    (doc : HabitDoc) (hk1 : doc.user_id = uid) (hk2 : doc.name = n)
    (hf : findHabit hs uid n ≠ none) :
    findHabit (setHabit hs uid n doc) uid n = some doc := by
  induction hs with
  | nil => exact absurd rfl hf
  | cons y rest ih =>
    by_cases hm : y.user_id = uid ∧ y.name = n
    · simp [setHabit, findHabit, hm, hk1, hk2]
    · simp only [findHabit, if_neg hm] at hf
      simp [setHabit, findHabit, hm, ih hf]

theorem findHabit_append_none (hs : List HabitDoc) (uid : Int) (n : String)
    (doc : HabitDoc) (hk1 : doc.user_id = uid) (hk2 : doc.name = n)
    (h : findHabit hs uid n = none) :
    findHabit (hs ++ [doc]) uid n = some doc := by
  induction hs with
  | nil => simp [findHabit, hk1, hk2]
  | cons y rest ih =>
    by_cases hm : y.user_id = uid ∧ y.name = n
    · simp [findHabit, hm] at h
    · simp only [findHabit, if_neg hm] at h
      simp [List.cons_append, findHabit, hm, ih h]

theorem mem_setHabit_of_ne (hs : List HabitDoc) (uid : Int) (n : String)
    (doc x : HabitDoc) (hx : x ∈ hs) (hne : ¬(x.user_id = uid ∧ x.name = n)) :
    x ∈ setHabit hs uid n doc := by
  induction hs with
  | nil => cases hx
  | cons y rest ih =>
    by_cases hm : y.user_id = uid ∧ y.name = n
    · simp only [setHabit, if_pos hm]
      rcases List.mem_cons.mp hx with he | hr
      · subst he; exact absurd hm hne
      · exact List.mem_cons_of_mem _ hr
    · simp only [setHabit, if_neg hm]
      rcases List.mem_cons.mp hx with he | hr
      · subst he; exact List.mem_cons_self _ _
      · exact List.mem_cons_of_mem _ (ih hr)

theorem concatLines_cons (a : ProcessedActivity) (rest : List ProcessedActivity) :
    concatLines (a :: rest) = activity_line a ++ concatLines rest := rfl

theorem foldl_append_lines (as : List ProcessedActivity) (init : String) :
    as.foldl (fun msg a => msg ++ activity_line a) init =
      init ++ concatLines as := by
  induction as generalizing init with
  | nil => simp [concatLines, List.foldl, String.append_empty]
  | cons a rest ih =>
    simp only [List.foldl_cons]
    rw [ih, concatLines_cons, String.append_assoc]

/-- C1: code behaviour at the point where the claim requires a reset.  The
user `userT` has `streak = 5` and a previous activity at instant 0; logging a
new activity 49 hours (176400 s) later leaves the streak at 6, not 1:
`log_activity` overwrites `stats.last_activity` with the current instant
before `_update_streak` reads it, so the elapsed time `_update_streak`
measures is always 0 and the increment branch is always taken for an existing
user. -/
theorem streak_reads_overwritten_last_activity :
    ((log_activity dbT 1 "run" 176000 30 "neutral" 176400).2.users.map
      (fun u => u.stats.streak)) = [6] := by decide

/-- C2 counterexample: calling `log_activity` for external id 1 on a database
with no user profile at all does not fail with any error; it persists the
activity record while leaving the (empty) users collection untouched. -/
theorem log_activity_missing_user_persists :
    (log_activity dbEmpty 1 "run" 600 30 "neutral" 1000).2.activities =
      [{ user_id := 1, activity := "run", timestamp := 600, duration := 30,
         sentiment := "neutral", created_at := 1000 }] ∧
    (log_activity dbEmpty 1 "run" 600 30 "neutral" 1000).2.users = [] := by
  decide

/-- C2 (amended): for every call to `log_activity` with a `user_external_id`
for which no user profile exists, the operation does not fail: the activity
record is persisted (appended to the activities collection), while the users
and habits collections are left unchanged (the stats update matches no
document and `_update_streak` returns early). -/
theorem log_activity_missing_user_spec (db : DB) (uid : Int) (a : String)
    (t : Time) (d : Int) (s : String) (now : Time)
    (hu : findUser db.users uid = none) :
    (log_activity db uid a t d s now).2.users = db.users ∧
    (log_activity db uid a t d s now).2.activities =
      db.activities ++ [(log_activity db uid a t d s now).1] ∧
    (log_activity db uid a t d s now).2.habits = db.habits :=
  log_activity_not_found db uid a t d s now hu

/-- Witness for C2 (amended) at a concrete input: an empty database and
external id 2. -/
theorem log_activity_missing_user_spec_witness :
    (log_activity dbEmpty 2 "x" 0 5 "neutral" 3).2.users = dbEmpty.users ∧
    (log_activity dbEmpty 2 "x" 0 5 "neutral" 3).2.activities =
      dbEmpty.activities ++ [(log_activity dbEmpty 2 "x" 0 5 "neutral" 3).1] ∧
    (log_activity dbEmpty 2 "x" 0 5 "neutral" 3).2.habits = dbEmpty.habits :=
  log_activity_missing_user_spec dbEmpty 2 "x" 0 5 "neutral" 3 rfl

/-- C3 counterexample: a repeated upsert for the existing goal `habit0`
(`streak = 5`, `total_completions = 7`, `created_at = 100`) does not leave
those fields unchanged as the claim states: the stored goal afterwards has
both counters reset to 0 and `created_at` overwritten with the call
instant 200, because `add_or_update_habit` applies `$set` with a complete
fresh document. -/
theorem upsert_goal_resets_counters :
    (add_or_update_habit dbH 1 "reading" "weekly" 45 200).2.habits ≠
      [habit0claimed] ∧
    (add_or_update_habit dbH 1 "reading" "weekly" 45 200).2.habits =
      [{ user_id := 1, name := "reading", target_frequency := "weekly",
         target_duration := 45, created_at := 200, updated_at := 200,
         streak := 0, total_completions := 0 }] := by decide

/-- C3 (amended): every `upsert_goal` call — whether or not a goal with the
same `(user, name)` key already exists — stores under that key the complete
fresh document: the target fields and `updated_at` from the call, but also
`created_at` set to the call instant and both counters (`streak_days`,
`total_completions`) reset to zero.  Goals with a different key are
preserved. -/
theorem upsert_goal_replaces_wholesale (db : DB) (uid : Int)
    (hname freq : String) (dur : Int) (now : Time) :
    (add_or_update_habit db uid hname freq dur now).1 =
      { user_id := uid, name := hname, target_frequency := freq,
        target_duration := dur, created_at := now, updated_at := now,
        streak := 0, total_completions := 0 } ∧
    findHabit (add_or_update_habit db uid hname freq dur now).2.habits uid
        hname =
      some { user_id := uid, name := hname, target_frequency := freq,
             target_duration := dur, created_at := now, updated_at := now,
             streak := 0, total_completions := 0 } ∧
    (∀ x ∈ db.habits, ¬(x.user_id = uid ∧ x.name = hname) →
      x ∈ (add_or_update_habit db uid hname freq dur now).2.habits) := by
  unfold add_or_update_habit
  cases hf : findHabit db.habits uid hname with
  | some h0 =>
    refine ⟨rfl, ?_, ?_⟩
    · exact findHabit_setHabit_self db.habits uid hname _ rfl rfl
        (by simp [hf])
    · intro x hx hne
      exact mem_setHabit_of_ne db.habits uid hname _ x hx hne
  | none =>
    refine ⟨rfl, ?_, ?_⟩
    · exact findHabit_append_none db.habits uid hname _ rfl rfl hf
    · intro x hx _
      exact List.mem_append_left _ hx

/-- Witness for C3 (amended) at a concrete input: a repeat upsert over the
database holding `habit0`. -/
theorem upsert_goal_replaces_wholesale_witness :
    findHabit (add_or_update_habit dbH 1 "reading" "monthly" 15 300).2.habits
        1 "reading" =
      some { user_id := 1, name := "reading", target_frequency := "monthly",
             target_duration := 15, created_at := 300, updated_at := 300,
             streak := 0, total_completions := 0 } :=
  (upsert_goal_replaces_wholesale dbH 1 "reading" "monthly" 15 300).2.1

/-- C4: the code performs no validation of the extractor output and none of
the produced records is checked against the schema: the record-construction
step of `process_message` copies the fields of an item with an invalid time,
a negative duration and an out-of-set sentiment unchanged into a
`ProcessedActivity` and raises no `ValidationError`, although the record
violates every clause of the schema invariant of the spec. -/
theorem extraction_no_validation :
    process_items
        [{ time := "25:99", activity := "x", sentiment := "angry",
           duration := -5 }] =
      [{ time := "25:99", activity := "x", sentiment := "angry",
         duration := -5 }] ∧
    specValidRecord
        { time := "25:99", activity := "x", sentiment := "angry",
          duration := -5 } = false :=
  ⟨rfl, by decide⟩

/-- C5: stats invariant: if the counters of a user match their persisted activity
records, then after any sequence of `log_activity` calls they still match;
and concretely, after logging activities with durations 30, 0 and 45 against
a fresh profile for user 7, `total_activities = 3` and
`total_duration_minutes = 75`. -/
theorem stats_accumulation (db : DB) (uid : Int) (cs : List LogCall)
    (h : statsInv db uid = true) :
    statsInv (logAll db cs) uid = true ∧
    (get_user_stats dbC5after 7).map
      (fun st => (st.total_activities, st.total_duration)) = some (3, 75) :=
  ⟨statsInv_logAll db uid cs h, by decide⟩

/-- Witness for C5 at a concrete input: the fresh profile for user 7 and the
three logged durations 30, 0, 45. -/
theorem stats_accumulation_witness :
    statsInv (logAll dbFresh c5calls) 7 = true ∧
    (get_user_stats dbC5after 7).map
      (fun st => (st.total_activities, st.total_duration)) = some (3, 75) :=
  stats_accumulation dbFresh 7 c5calls (by decide)

/-- C6: `get_or_create_user` is idempotent: the first call for an absent
external id materializes the default profile (default settings, stats all
zero with `last_activity` null) and appends it to the users collection; a
second call with the same external id returns exactly the profile delivered
by the first call and leaves the database unchanged — hence identical
`created_at` and unmodified stats after the second call. -/
theorem create_user_idempotent (db : DB) (tid : Int) (n1 n2 : String)
    (t1 t2 : Time) :
    (defaultUser tid n1 t1).stats = defaultStats ∧
    defaultStats =
      { total_activities := 0, total_duration := 0, streak := 0,
        last_activity := none } ∧
    (defaultUser tid n1 t1).settings =
      { timezone := "UTC", daily_reminder := false,
        reminder_time := "09:00" } ∧
    (findUser db.users tid = none →
      (create_user db tid n1 t1).1 = defaultUser tid n1 t1 ∧
      (create_user db tid n1 t1).2.users =
        db.users ++ [defaultUser tid n1 t1]) ∧
    create_user (create_user db tid n1 t1).2 tid n2 t2 =
      ((create_user db tid n1 t1).1, (create_user db tid n1 t1).2) := by
  refine ⟨rfl, rfl, rfl, ?_, ?_⟩
  · intro h
    unfold create_user
    rw [h]
    exact ⟨rfl, rfl⟩
  · cases hu : findUser db.users tid with
    | some u =>
      have e1 : create_user db tid n1 t1 = (u, db) := by
        unfold create_user; rw [hu]
      rw [e1]
      unfold create_user
      rw [hu]
    | none =>
      have e1 : create_user db tid n1 t1 =
          (defaultUser tid n1 t1,
           { db with users := db.users ++ [defaultUser tid n1 t1] }) := by
        unfold create_user; rw [hu]
      rw [e1]
      have h2 : findUser
          ({ db with users := db.users ++ [defaultUser tid n1 t1] }).users
          tid = some (defaultUser tid n1 t1) :=
        findUser_append_none db.users _ tid hu rfl
      unfold create_user
      rw [h2]

/-- Witness for C6 at a concrete input: two calls for external id 3 on the
empty database. -/
theorem create_user_idempotent_witness :
    (create_user dbEmpty 3 "ann" 10).1 = defaultUser 3 "ann" 10 ∧
    create_user (create_user dbEmpty 3 "ann" 10).2 3 "ann" 20 =
      ((create_user dbEmpty 3 "ann" 10).1,
       (create_user dbEmpty 3 "ann" 10).2) :=
  ⟨((create_user_idempotent dbEmpty 3 "ann" "ann" 10 20).2.2.2.1 rfl).1,
   (create_user_idempotent dbEmpty 3 "ann" "ann" 10 20).2.2.2.2⟩

/-- C7 counterexample: with window bounds start 0 and end 5, the activity
`act5`, whose timestamp is exactly the end bound 5, is returned — the query
uses an inclusive (`$lte`) upper bound, so the window is closed, not
half-open as the claim states. -/
theorem recent_activities_end_inclusive :
    get_user_activities dbA 1 (some 0) (some 5) 10 = [act5] ∧
    act5.timestamp = 5 := by
  constructor
  · simp [get_user_activities, dbA, act5, matchesQuery, List.filter]
  · rfl

/-- C7 (amended): `get_recent_activities` returns at most `limit` of the
activity records of the user, sorted by timestamp descending, filtered — when
bounds are given — to the closed window from start to end inclusive (records
with timestamp equal to end are included); and every stored record of the
user inside the window appears in the result whenever `limit` is large
enough. -/
theorem recent_activities_spec (db : DB) (uid : Int) (sd ed : Option Time)
    (lim : Nat) :
    (get_user_activities db uid sd ed lim).length ≤ lim ∧
    (get_user_activities db uid sd ed lim).Pairwise
      (fun a b => b.timestamp ≤ a.timestamp) ∧
    (∀ a, a ∈ get_user_activities db uid sd ed lim →
      a ∈ db.activities ∧ a.user_id = uid ∧
      (∀ s, sd = some s → s ≤ a.timestamp) ∧
      (∀ e, ed = some e → a.timestamp ≤ e)) ∧
    ((db.activities.filter (matchesQuery uid sd ed)).length ≤ lim →
      ∀ a, a ∈ db.activities → matchesQuery uid sd ed a = true →
        a ∈ get_user_activities db uid sd ed lim) := by
  have htrans : ∀ a b c : ActivityDoc,
      byTimestampDesc a b → byTimestampDesc b c → byTimestampDesc a c := by
    intro a b c h1 h2
    simp only [byTimestampDesc, decide_eq_true_eq] at h1 h2 ⊢
    exact le_trans h2 h1
  have htotal : ∀ a b : ActivityDoc,
      byTimestampDesc a b || byTimestampDesc b a := by
    intro a b
    simp only [byTimestampDesc, Bool.or_eq_true, decide_eq_true_eq]
    exact le_total b.timestamp a.timestamp
  have hsorted := List.sorted_mergeSort htrans htotal
    (db.activities.filter (matchesQuery uid sd ed))
  refine ⟨?_, ?_, ?_, ?_⟩
  · exact List.length_take_le lim _
  · exact (List.Pairwise.sublist (List.take_sublist lim _) hsorted).imp
      (fun h => by simpa [byTimestampDesc] using h)
  · intro a ha
    have ha1 : a ∈ ((db.activities.filter (matchesQuery uid sd ed)).mergeSort
        byTimestampDesc).take lim := ha
    have ha2 : a ∈ (db.activities.filter (matchesQuery uid sd ed)).mergeSort
        byTimestampDesc := List.mem_of_mem_take ha1
    have ha3 : a ∈ db.activities.filter (matchesQuery uid sd ed) :=
      List.mem_mergeSort.mp ha2
    have hmem := (List.mem_filter.mp ha3).1
    have hq := (List.mem_filter.mp ha3).2
    simp only [matchesQuery, Bool.and_eq_true, decide_eq_true_eq] at hq
    refine ⟨hmem, hq.1.1, ?_, ?_⟩
    · intro s hs
      subst hs
      simpa using hq.1.2
    · intro e he
      subst he
      simpa using hq.2
  · intro hlen a hmem hq
    have hlen2 : ((db.activities.filter (matchesQuery uid sd ed)).mergeSort
        byTimestampDesc).length ≤ lim := by
      rw [List.length_mergeSort]; exact hlen
    show a ∈ ((db.activities.filter (matchesQuery uid sd ed)).mergeSort
      byTimestampDesc).take lim
    rw [List.take_of_length_le hlen2]
    exact List.mem_mergeSort.mpr (List.mem_filter.mpr ⟨hmem, hq⟩)

/-- Witness for C7 (amended) at a concrete input: the record on the window
boundary is among the results. -/
theorem recent_activities_spec_witness :
    act5 ∈ get_user_activities dbA 1 (some 0) (some 5) 10 :=
  (recent_activities_spec dbA 1 (some 0) (some 5) 10).2.2.2 (by decide)
    act5 (by decide) (by decide)

/-- C8: `format_activities` returns the fixed empty-state sentinel on the
empty sequence; on a non-empty sequence it emits the header followed by one
line per record in input order; the duration suffix is empty exactly when
the (non-negative) duration is 0; and the sentiment glyph for any value
other than "positive" and "negative" — in particular every unknown
sentiment value — is the neutral glyph. -/
theorem format_activities_spec (as : List ProcessedActivity) :
    format_activities_for_display [] = "No activities found in the message." ∧
    (as ≠ [] → format_activities_for_display as =
      "📋 Here\x27s your activity log:\n\n" ++ concatLines as) ∧
    (∀ d : Int, 0 ≤ d → (duration_text d = "" ↔ d = 0)) ∧
    (∀ s : String, s ≠ "positive" → s ≠ "negative" →
      sentiment_emoji s = "😐") := by
  refine ⟨rfl, ?_, ?_, ?_⟩
  · intro h
    unfold format_activities_for_display
    rw [if_neg (by simpa [List.isEmpty_iff] using h)]
    exact foldl_append_lines as _
  · intro d hd
    constructor
    · intro he
      by_contra hne
      have hpos : 0 < d := lt_of_le_of_ne hd (Ne.symm hne)
      rw [duration_text, if_pos hpos] at he
      have hlen := congrArg String.length he
      rw [String.length_append, String.length_append] at hlen
      have hl2 : (" (").length = 2 := rfl
      have hl6 : (" mins)").length = 6 := rfl
      have hl0 : ("" : String).length = 0 := rfl
      omega
    · intro h0
      subst h0
      rfl
  · intro s h1 h2
    unfold sentiment_emoji
    rw [if_neg h1]
    by_cases h3 : s = "neutral"
    · rw [if_pos h3]
    · rw [if_neg h3, if_neg h2]

/-- Witness for C8 at concrete inputs: a singleton list, duration 0 and the
unknown sentiment value "weird". -/
theorem format_activities_spec_witness :
    format_activities_for_display [pa0] =
      "📋 Here\x27s your activity log:\n\n" ++ concatLines [pa0] ∧
    (duration_text 0 = "" ↔ (0 : Int) = 0) ∧
    sentiment_emoji "weird" = "😐" :=
  ⟨(format_activities_spec [pa0]).2.1 (by decide),
   (format_activities_spec [pa0]).2.2.1 0 (by decide),
   (format_activities_spec [pa0]).2.2.2 "weird" (by decide) (by decide)⟩

/-- C9: frame property of `log_activity`: every user document is related to
its post-call version by `profileFrame` — `telegram_id`, `username`,
`created_at` and `settings` are preserved for every user, only the `stats`
sub-document of the targeted user may change, and any document whose
`telegram_id` differs from the target is preserved entirely; the habits
collection is untouched. -/
theorem log_activity_frame (db : DB) (uid : Int) (a : String) (t : Time)
    (d : Int) (s : String) (now : Time) :
    List.Forall₂ (profileFrame uid) db.users
      (log_activity db uid a t d s now).2.users ∧
    (log_activity db uid a t d s now).2.habits = db.habits := by
  have h1 := updateUserStats_frame db.users uid
    (fun st => Stats.mk (st.total_activities + 1) (st.total_duration + d)
      st.streak (some now))
  have h2 := update_streak_frame
    (DB.mk (updateUserStats db.users uid
      (fun st => Stats.mk (st.total_activities + 1) (st.total_duration + d)
        st.streak (some now)))
      (db.activities ++ [ActivityDoc.mk uid a t d s now]) db.habits)
    uid now
  exact ⟨forall2_trans_of (profileFrame_comp uid) h1 h2.1, h2.2.2⟩

/-- Witness for C9 at a concrete input: logging against the database `dbT`. -/
theorem log_activity_frame_witness :
    List.Forall₂ (profileFrame 1) dbT.users
      (log_activity dbT 1 "y" 0 0 "neutral" 99).2.users ∧
    (log_activity dbT 1 "y" 0 0 "neutral" 99).2.habits = dbT.habits :=
  log_activity_frame dbT 1 "y" 0 0 "neutral" 99

/-- C10: streak positivity: for every existing user whose streak is
non-negative before the call, a successful `log_activity` leaves that user
with streak at least 1 — the code always takes a branch that either
increments the non-negative value or sets it to 1, so logging never leaves
the streak at 0. -/
theorem streak_positive_after_log (db : DB) (uid : Int) (a : String)
    (t : Time) (d : Int) (s : String) (now : Time) (u : UserDoc)
    (hu : findUser db.users uid = some u) (hs : 0 ≤ u.stats.streak) :
    ∃ v, findUser (log_activity db uid a t d s now).2.users uid = some v ∧
      1 ≤ v.stats.streak := by
  obtain ⟨-, h2, -, -⟩ := log_activity_found db uid a t d s now u hu
  refine ⟨{ u with stats := logStatsUpdate d now u.stats }, ?_, ?_⟩
  · rw [h2, findUser_updateUserStats_self, hu]; rfl
  · show 1 ≤ u.stats.streak + 1
    omega

/-- Witness for C10 at a concrete input: the user `userT` with streak 5. -/
theorem streak_positive_after_log_witness :
    ∃ v, findUser (log_activity dbT 1 "x" 0 0 "neutral" 100).2.users 1 =
      some v ∧ 1 ≤ v.stats.streak :=
  streak_positive_after_log dbT 1 "x" 0 0 "neutral" 100 userT (by decide)
    (by decide)

end HabitTracker
